import Mathlib

/-!
Shallow embedding of the generic-pico-sw IoT sensor-node core
(src/generic-pico-sw/src): the sensor abstraction (base_sensor.py),
the sensor scheduler (sensor_manager.py), the centralized error handler
(control/error_handler.py), the MQTT transport wrapper
(communication/mqtt_manager.py) and the service LED animation
(utils/service_led.py).

Modelling conventions:
- Python dicts whose iteration order matters are association lists
  `List (String × value)` in insertion order; `alookup` is `dict.get`,
  `aset` is `dict[k] = v` for a key already present.
- MQTT publish calls, reads and log lines are collected in an effect
  trace (`Eff`); configuration persistence (`Config.save_config`) is a
  save counter threaded through the operations.
- Exceptions of the underlying umqtt client and of sensor hardware are
  external; a sensor read is an oracle `String → ReadOutcome` giving,
  per sensor id, either data or a raised exception, and client-level
  publish failure is an explicit `clientOk` flag on the transport.
- Timestamps (`time.time()`) are integers, durations of the LED blink
  pattern are opaque data (the code never computes with them), and
  `get_formatted_datetime()` is an opaque string parameter `ts`.
-/

/-- A JSON-ish scalar value stored in a sensor parameter map. -/
inductive PVal
  | pint (n : Int)
  | pstr (s : String)
  | pbool (b : Bool)
deriving DecidableEq

/-- `dict.get k`: first binding of `k` in an association list
(Python dicts have unique keys, so first = only). -/
def alookup {β : Type} (l : List (String × β)) (k : String) : Option β :=
  (l.find? (fun kv => kv.1 == k)).map Prod.snd

/-- `d[k] = v` for a key already present: rewrite every binding of `k`
(at most one in a well-formed dict), leaving other keys in place. -/
def aset {β : Type} (l : List (String × β)) (k : String) (v : β) :
    List (String × β) :=
  l.map (fun kv => if kv.1 == k then (k, v) else kv)

/-- `sensor_state.py`: the SensorState constants. -/
inductive SensorState
  | ACTIVE
  | DISABLED
  | ERROR
deriving DecidableEq

/-- The string constant each state stands for in `sensor_state.py`. -/
def SensorState.toStr : SensorState → String
  | .ACTIVE => "ACTIVE"
  | .DISABLED => "DISABLED"
  | .ERROR => "ERROR"

/-- One observable side effect of the core: an MQTT publish handed to
the transport, a hardware read attempt, or a log line (log text kept
short, without the interpolated id prefixes of the source). -/
inductive Eff
  | pub (topic : String) (payload : List (String × String))
  | readCall (sid : String)
  | logInfo (msg : String)
  | logWarn (msg : String)
  | logErr (msg : String)
  | logDebug (msg : String)
deriving DecidableEq

/-- The topic of a publish effect, if it is one. -/
def Eff.pubTopic : Eff → Option String
  | .pub t _ => some t
  | _ => none

/-- `base_sensor.py` BaseSensor: id, `publish_topics`
(`s_config["mqtt"]["publish"]`), the `parameters` dict split into its
`editable`, `defaults` and `read_only` sub-dicts,
`capabilities["control"]`, the current `_state`, and whether an MQTT
manager is attached (`self.mqtt_manager` non-None). -/
structure BaseSensor where
  sensor_id : String
  publish_topics : List (String × String)
  editable : List (String × PVal)
  defaults : List (String × PVal)
  read_only : List (String × PVal)
  control : List String
  state : SensorState
  mqtt_attached : Bool
deriving DecidableEq

/-- `self.publish_topics.get(name)` followed by Python truthiness
(`if topic`): an empty-string topic counts as unconfigured. -/
def BaseSensor.getTopic (s : BaseSensor) (name : String) : Option String :=
  match alookup s.publish_topics name with
  | some t => if t == "" then none else some t
  | none => none

/-- `BaseSensor._can_publish` (base_sensor.py lines 193-210), with its
log effects.  The source's first guard `if not self.enabled:` tests the
bound method object `self.enabled` (no call parentheses), which is
always truthy, so that branch is dead code and is omitted here; the
remaining guards are the emptiness check and the ACTIVE-state check. -/
def BaseSensor.can_publish (s : BaseSensor) (data : List (String × String)) :
    Bool × List Eff :=
  if data.isEmpty then
    (false, [Eff.logWarn "No data to publish."])
  else if s.state ≠ SensorState.ACTIVE then
    (false, [Eff.logWarn "Sensor is not in ACTIVE state. Skipping data publish."])
  else
    (true, [])

/-- `BaseSensor.publish_data` (base_sensor.py lines 66-83). -/
def BaseSensor.publish_data (s : BaseSensor) (data : List (String × String)) :
    List Eff :=
  let cp := s.can_publish data
  if cp.1 = false then cp.2
  else
    match s.getTopic "data" with
    | some t =>
        if s.mqtt_attached then [Eff.logDebug "publish_data", Eff.pub t data]
        else [Eff.logWarn "No data topic found."]
    | none => [Eff.logWarn "No data topic found."]

/-- `BaseSensor.publish_error` (base_sensor.py lines 85-102): same
`_can_publish` gate as data, then the `errors` topic. -/
def BaseSensor.publish_error (s : BaseSensor) (data : List (String × String)) :
    List Eff :=
  let cp := s.can_publish data
  if cp.1 = false then cp.2
  else
    match s.getTopic "errors" with
    | some t =>
        if s.mqtt_attached then [Eff.logDebug "publish_error", Eff.pub t data]
        else [Eff.logWarn "No error topic found."]
    | none => [Eff.logWarn "No error topic found."]

/-- `BaseSensor.publish_state` (base_sensor.py lines 104-115): no
`_can_publish` gate; publishes the current state string. -/
def BaseSensor.publish_state (s : BaseSensor) : List Eff :=
  match s.getTopic "state" with
  | some t =>
      if s.mqtt_attached then
        [Eff.logDebug "publish_state", Eff.pub t [("state", s.state.toStr)]]
      else [Eff.logWarn "No state topic found."]
  | none => [Eff.logWarn "No state topic found."]

/-- `BaseSensor.error` (base_sensor.py lines 215-217): demote to ERROR,
then publish the (new) state. -/
def BaseSensor.error (s : BaseSensor) : BaseSensor × List Eff :=
  let s2 := { s with state := SensorState.ERROR }
  (s2, s2.publish_state)

/-- `BaseSensor.enable` (base_sensor.py lines 219-227). -/
def BaseSensor.enable (s : BaseSensor) : BaseSensor × List Eff :=
  if s.state = SensorState.DISABLED then
    let s2 := { s with state := SensorState.ACTIVE }
    (s2, Eff.logInfo "Enabling sensor." :: s2.publish_state)
  else (s, [])

/-- `BaseSensor.disable` (base_sensor.py lines 229-237). -/
def BaseSensor.disable (s : BaseSensor) : BaseSensor × List Eff :=
  if s.state = SensorState.ACTIVE then
    let s2 := { s with state := SensorState.DISABLED }
    (s2, Eff.logInfo "Disabling sensor." :: s2.publish_state)
  else (s, [])

/-- `BaseSensor.update_parameter` (base_sensor.py lines 152-168):
write only if the key is already in the `editable` dict, persisting
(`config.save_config()`, modelled as a save counter) after the write;
an unknown key is only logged. -/
def BaseSensor.update_parameter (s : BaseSensor) (saves : Nat) (key : String)
    (v : PVal) : BaseSensor × Nat × List Eff :=
  match alookup s.editable key with
  | some _ =>
      ({ s with editable := aset s.editable key v }, saves + 1,
        [Eff.logInfo "Updated parameter",
         Eff.logInfo "Configuration updated successfully."])
  | none => (s, saves, [Eff.logWarn "is not in editable parameters."])

/-- One iteration of the `for k, default_val in fac_def.items()` loop of
`BaseSensor._do_factory_reset` (base_sensor.py lines 180-187): write the
default into `editable` and persist if the key is editable, else warn. -/
def BaseSensor.factoryStep (acc : BaseSensor × Nat × List Eff)
    (kv : String × PVal) : BaseSensor × Nat × List Eff :=
  match alookup acc.1.editable kv.1 with
  | some _ =>
      ({ acc.1 with editable := aset acc.1.editable kv.1 kv.2 }, acc.2.1 + 1,
        acc.2.2 ++ [Eff.logInfo "Reset parameter to default"])
  | none => (acc.1, acc.2.1, acc.2.2 ++ [Eff.logWarn "is not in editable parameters."])

/-- `BaseSensor._do_factory_reset` (base_sensor.py lines 170-191):
empty `defaults` dict is falsy, so the method warns and returns without
touching the state; otherwise every default key present in `editable`
is overwritten (persisting after each), the state is forced to ACTIVE
and the state is published. -/
def BaseSensor.do_factory_reset (s : BaseSensor) (saves : Nat) :
    BaseSensor × Nat × List Eff :=
  if s.defaults.isEmpty then
    (s, saves, [Eff.logWarn "No factory_defaults found."])
  else
    let r := s.defaults.foldl BaseSensor.factoryStep (s, saves, [])
    let s2 := { r.1 with state := SensorState.ACTIVE }
    (s2, r.2.1,
      r.2.2 ++ [Eff.logInfo "Factory reset completed."] ++ s2.publish_state)

/-- The command names `BaseSensor.process_command` knows
(base_sensor.py lines 139-144). -/
def BaseSensor.command_names : List String :=
  ["enable", "disable", "self_test", "factory_reset"]

/-- `BaseSensor.process_command` (base_sensor.py lines 131-150):
dispatch only when the command is both in `capabilities["control"]`
and in the built-in command map, else warn. -/
def BaseSensor.process_command (s : BaseSensor) (saves : Nat) (cmd : String) :
    BaseSensor × Nat × List Eff :=
  if cmd ∈ s.control ∧ cmd ∈ BaseSensor.command_names then
    if cmd = "enable" then
      let r := s.enable
      (r.1, saves, Eff.logInfo "Processing command" :: r.2)
    else if cmd = "disable" then
      let r := s.disable
      (r.1, saves, Eff.logInfo "Processing command" :: r.2)
    else if cmd = "self_test" then
      (s, saves, [Eff.logInfo "Processing command",
                  Eff.logInfo "Running self_test base implementation."])
    else
      let r := s.do_factory_reset saves
      (r.1, r.2.1, Eff.logInfo "Processing command" :: r.2.2)
  else (s, saves, [Eff.logWarn "Unsupported command"])

/-- `defaults.py`: DEFAULT_UPDATE_SENSOR_INTERVAL. -/
def DEFAULT_UPDATE_SENSOR_INTERVAL : Int := 60

/-- `defaults.py`: DEFAULT_POST_GLOBAL_ERROR. -/
def DEFAULT_POST_GLOBAL_ERROR : Bool := false

/-- `defaults.py`: DEFAULT_AUTO_RESTART_ON_ERROR. -/
def DEFAULT_AUTO_RESTART_ON_ERROR : Bool := true

/-- Numeric view of a parameter value (`report_interval` is used in
integer time arithmetic by the scheduler). -/
def PVal.toInt : PVal → Option Int
  | .pint n => some n
  | _ => none

/-- The outcome of one `sensor.read_values()` call: a data dict, or a
raised exception with its message.  Sensor hardware is external, so a
scheduler tick takes an oracle `String → ReadOutcome` indexed by
sensor id. -/
inductive ReadOutcome
  | ok (data : List (String × String))
  | exn (msg : String)
deriving DecidableEq

/-- The SensorManager entry for one sensor id: the instance in
`self.sensors[sid]` together with `self._next_update_times[sid]`
(the two dicts share their keys). -/
structure SensorEntry where
  sid : String
  sensor : BaseSensor
  next_update_time : Int
deriving DecidableEq

/-- The interval read fresh each tick (sensor_manager.py line 90):
`sensor.parameters.get("editable", {}).get("report_interval",
DEFAULT_UPDATE_SENSOR_INTERVAL)`.  A non-numeric stored value would
make the Python line 103 addition raise outside the per-sensor try
(crashing the tick); the embedding assumes a numeric or absent value. -/
def readInterval (s : BaseSensor) : Int :=
  ((alookup s.editable "report_interval").bind PVal.toInt).getD
    DEFAULT_UPDATE_SENSOR_INTERVAL

/-- `SensorManager._error_handler` (sensor_manager.py lines 197-216):
log, publish the `{timestamp, error}` payload on the sensor errors
topic, demote the sensor to ERROR (which republishes its state).  The
inner `except` branch only fires on client-level exceptions, which are
external and not modelled, so the success log always follows. -/
def SensorManager.error_handler (ts : String) (s : BaseSensor)
    (error_msg : String) : BaseSensor × List Eff :=
  let pe := s.publish_error [("timestamp", ts), ("error", error_msg)]
  let r := s.error
  (r.1, Eff.logErr "Error in sensor" :: pe ++ r.2 ++
        [Eff.logInfo "Error data published for sensor"])

/-- The body of the `for sid, sensor in self.sensors.items()` loop of
`SensorManager.update_sensors` (sensor_manager.py lines 88-103) for one
entry: when due, publish state, read (the oracle may raise), publish
non-empty data, routing any exception to `_error_handler`; the next
update time is rescheduled to `now + interval` on every due tick,
success or failure, with the interval read fresh from `editable`. -/
def SensorManager.update_one (now : Int) (ts : String)
    (env : String → ReadOutcome) (e : SensorEntry) : SensorEntry × List Eff :=
  let interval := readInterval e.sensor
  if e.next_update_time ≤ now then
    let stEffs := e.sensor.publish_state
    let body :=
      match env e.sid with
      | .ok data =>
          if data.isEmpty then (e.sensor, ([] : List Eff))
          else (e.sensor, e.sensor.publish_data data)
      | .exn m =>
          let r := SensorManager.error_handler ts e.sensor
            ("Error during sensor update: " ++ m)
          (r.1, Eff.logErr "Error during sensor update" :: r.2)
    ({ e with sensor := body.1, next_update_time := now + interval },
      stEffs ++ [Eff.readCall e.sid] ++ body.2)
  else (e, [])

/-- `SensorManager.update_sensors` (sensor_manager.py lines 81-103):
one scheduler tick over the ordered sensor collection.  Each loop
iteration touches only its own entry (the per-sensor try/except keeps
one sensor's exception from aborting the loop), so the tick is the
entrywise map with the effect traces concatenated in loop order. -/
def SensorManager.update_sensors (entries : List SensorEntry) (now : Int)
    (ts : String) (env : String → ReadOutcome) :
    List SensorEntry × List Eff :=
  (entries.map (fun e => (SensorManager.update_one now ts env e).1),
   (entries.map (fun e => (SensorManager.update_one now ts env e).2)).flatten)

/-- The `config`-topic branch of the callback built by
`SensorManager._make_cb` (sensor_manager.py lines 169-183), on an
already-parsed flat dict: apply `update_parameter` to every pair, then,
if the dict contains `report_interval`, reschedule the next update time
to `now + new_interval` immediately (whether or not the key was
editable).  A non-numeric `report_interval` makes the Python addition
raise, which the outer `except` routes to `_error_handler`. -/
def SensorManager.handle_config_msg (e : SensorEntry) (saves : Nat)
    (now : Int) (ts : String) (kvs : List (String × PVal)) :
    SensorEntry × Nat × List Eff :=
  let r := kvs.foldl
    (fun acc kv =>
      let u := acc.1.update_parameter acc.2.1 kv.1 kv.2
      (u.1, u.2.1, acc.2.2 ++ u.2.2))
    (e.sensor, saves, ([] : List Eff))
  match alookup kvs "report_interval" with
  | none => ({ e with sensor := r.1 }, r.2.1, r.2.2)
  | some v =>
      match v.toInt with
      | some n =>
          ({ e with sensor := r.1, next_update_time := now + n }, r.2.1,
            r.2.2 ++ [Eff.logInfo "Report interval updated"])
      | none =>
          let h := SensorManager.error_handler ts r.1 "Error processing message"
          ({ e with sensor := h.1 }, r.2.1,
            r.2.2 ++ [Eff.logErr "Error processing message"] ++ h.2)

/-- How `ErrorHandler.handle_error` hands control back: a hard reboot
(`self.power.reboot()`, process does not resume) or a normal return to
the caller. -/
inductive HandleResult
  | reboots
  | returns
deriving DecidableEq

/-- `ErrorHandler` (error_handler.py lines 5-23): the policy read from
the `error_handling` config section (absent keys fall back to the
defaults at each read), the global errors topic (`{}` default is falsy,
modelled as `none`), and whether an MQTT manager is attached. -/
structure ErrorHandler where
  post_global_errors : Option Bool
  auto_restart_on_error : Option Bool
  error_topic : Option String
  mqtt_attached : Bool
deriving DecidableEq

/-- `ErrorHandler.handle_error` (error_handler.py lines 25-53): always
log; publish `{error, timestamp}` on the error topic when the
post-policy holds and an MQTT manager is attached and the topic is
configured, logging the omission otherwise; then reboot when the
auto-restart policy holds, else log and return. -/
def ErrorHandler.handle_error (h : ErrorHandler) (ts : String) (msg : String) :
    HandleResult × List Eff :=
  let e1 := [Eff.logErr "Handling error"]
  let pubEffs :=
    if (h.post_global_errors.getD DEFAULT_POST_GLOBAL_ERROR) ∧ h.mqtt_attached then
      match h.error_topic with
      | some t =>
          [Eff.logDebug "Publishing error to global errors topic.",
           Eff.logDebug "Publishing error to topic",
           Eff.pub t [("error", msg), ("timestamp", ts)]]
      | none =>
          [Eff.logDebug "Publishing error to global errors topic.",
           Eff.logErr "No error topic configured, not publishing error."]
    else [Eff.logDebug "Not publishing error to global errors topic."]
  if h.auto_restart_on_error.getD DEFAULT_AUTO_RESTART_ON_ERROR then
    (HandleResult.reboots,
      e1 ++ pubEffs ++ [Eff.logInfo "Auto-restarting system due to error."])
  else
    (HandleResult.returns,
      e1 ++ pubEffs ++ [Eff.logInfo "Not auto-restarting system due to error."])

/-- `MQTTManager` (mqtt_manager.py): the `connected` flag and the
messages actually handed to the umqtt client. -/
structure MQTTManager where
  connected : Bool
  outbox : List (String × String)
deriving DecidableEq

/-- `MQTTManager.publish` (mqtt_manager.py lines 59-79): when not
connected, log a warning and return (the message is dropped, no error
reaches the caller); when connected, hand the message to the client,
re-raising a client-level exception (`clientOk = false` models the
external `self.client.publish` raising). -/
def MQTTManager.publish (m : MQTTManager) (clientOk : Bool)
    (topic message : String) : Except String (MQTTManager × List Eff) :=
  if m.connected = false then
    Except.ok (m, [Eff.logWarn "MQTT not connected. Publish aborted."])
  else if clientOk then
    Except.ok ({ m with outbox := m.outbox ++ [(topic, message)] },
      [Eff.logDebug "MQTT publish"])
  else
    Except.error "MQTT publish error"

/-- One pass of the inner `for duration in blink_pattern` loop of
`ServiceLED._animate_led` (service_led.py lines 66-74): each pattern
entry of duration `d` yields one on-phase (LED set to `color`, held
`d`) followed by one off-phase (LED set to the off color, held `d`).
A phase is `(written value, hold duration)` with `some color` for on
and `none` for off; durations are opaque data (the code only passes
them to `sleep`). -/
def patternPhases {γ α : Type} (color : γ) (blink_pattern : List α) :
    List (Option γ × α) :=
  blink_pattern.flatMap (fun d => [(some color, d), (none, d)])

/-- Fuel-indexed run of the `while times == 0 or iteration < times`
loop of `ServiceLED._animate_led` (service_led.py lines 64-75), one
fuel unit per loop iteration, starting from `iteration`.  Returns the
phases emitted and whether the loop exited on its own (`false` when
the fuel ran out with the loop still going). -/
def animRunAux {γ α : Type} (color : γ) (blink_pattern : List α)
    (times iteration fuel : Nat) : List (Option γ × α) × Bool :=
  match fuel with
  | 0 => ([], false)
  | Nat.succ f =>
      if times = 0 ∨ iteration < times then
        let r := animRunAux color blink_pattern times (iteration + 1) f
        (patternPhases color blink_pattern ++ r.1, r.2)
      else ([], true)

/-- The value a phase writes to the pixel: the animation color for an
on-phase, `self.off_color` for an off-phase. -/
def phaseColor {γ α : Type} (off_color : γ) : Option γ × α → γ
  | (some c, _) => c
  | (none, _) => off_color

/-- The full sequence of pixel writes of a terminating animation run:
the phase writes, then the unconditional `finally` write of the off
color (service_led.py lines 80-83). -/
def animWrites {γ α : Type} (off_color color : γ) (blink_pattern : List α)
    (times fuel : Nat) : List γ :=
  ((animRunAux color blink_pattern times 0 fuel).1).map (phaseColor off_color)
    ++ [off_color]

/-- The pixel writes when the task is cancelled after `k` phase writes
(cancellation lands in an `await`, i.e. after the write of phase `k`):
the first `k` phase writes, then the `finally` off write, which runs on
the cancellation path as well. -/
def animCancelledWrites {γ α : Type} (off_color color : γ)
    (blink_pattern : List α) (times k fuel : Nat) : List γ :=
  (((animRunAux color blink_pattern times 0 fuel).1).take k).map
      (phaseColor off_color)
    ++ [off_color]

lemma alookup_nil {β : Type} (k : String) : alookup ([] : List (String × β)) k = none := rfl

lemma alookup_cons {β : Type} (x : String × β) (l : List (String × β)) (k : String) :
    alookup (x :: l) k = if x.1 = k then some x.2 else alookup l k := by
  by_cases h : x.1 = k
  · simp [alookup, List.find?_cons_of_pos, h]
  · simp [alookup, List.find?_cons_of_neg, h]

lemma aset_cons {β : Type} (x : String × β) (l : List (String × β)) (k : String) (v : β) :
    aset (x :: l) k v = (if x.1 == k then (k, v) else x) :: aset l k v := rfl

lemma alookup_aset {β : Type} (l : List (String × β)) (k k2 : String) (v : β) :
    alookup (aset l k v) k2 =
      if k2 = k then (alookup l k).map (fun _ => v) else alookup l k2 := by
  induction l with
  | nil => by_cases h : k2 = k <;> simp [alookup, aset, h]
  | cons x tl ih =>
      rw [aset_cons]
      by_cases hk : k2 = k
      · subst hk
        by_cases hx : x.1 = k2
        · simp [alookup_cons, hx, ih]
        · simp [alookup_cons, hx, ih]
      · by_cases hx : x.1 = k
        · have hxk2 : ¬ (k = k2) := fun hh => hk hh.symm
          simp [alookup_cons, hx, hk, ih, hxk2]
        · simp [alookup_cons, hx, hk, ih]

lemma alookup_aset_isSome {β : Type} (l : List (String × β)) (k k2 : String) (v : β) :
    (alookup (aset l k v) k2).isSome = (alookup l k2).isSome := by
  rw [alookup_aset]
  by_cases h : k2 = k
  · simp [h]
  · simp [h]

lemma countP_isSome_aset (tl l : List (String × PVal)) (k : String) (v : PVal) :
    tl.countP (fun kv => (alookup (aset l k v) kv.1).isSome)
      = tl.countP (fun kv => (alookup l kv.1).isSome) := by
  induction tl with
  | nil => rfl
  | cons a tl2 ih => simp [List.countP_cons, ih, alookup_aset_isSome]

lemma factory_fold_isSome (ds : List (String × PVal)) :
    ∀ (s : BaseSensor) (saves : Nat) (effs : List Eff) (k : String),
      (alookup ((ds.foldl BaseSensor.factoryStep (s, saves, effs)).1).editable k).isSome
        = (alookup s.editable k).isSome := by
  induction ds with
  | nil => intro s saves effs k; rfl
  | cons d tl ih =>
      intro s saves effs k
      rw [List.foldl_cons]
      cases hd : alookup s.editable d.1 with
      | some w => simp [BaseSensor.factoryStep, hd, ih, alookup_aset_isSome]
      | none => simp [BaseSensor.factoryStep, hd, ih]

lemma factory_fold_frame (ds : List (String × PVal)) :
    ∀ (s : BaseSensor) (saves : Nat) (effs : List Eff) (k : String),
      k ∉ ds.map Prod.fst →
      alookup ((ds.foldl BaseSensor.factoryStep (s, saves, effs)).1).editable k
        = alookup s.editable k := by
  induction ds with
  | nil => intro s saves effs k _; rfl
  | cons d tl ih =>
      intro s saves effs k hk
      have hk1 : ¬ (k = d.1) := fun hh => hk (by simp [hh])
      have hk2 : k ∉ tl.map Prod.fst := fun hh => hk (by simp [hh])
      rw [List.foldl_cons]
      cases hd : alookup s.editable d.1 with
      | some w => simp [BaseSensor.factoryStep, hd, ih _ _ _ _ hk2, alookup_aset, hk1]
      | none => simp [BaseSensor.factoryStep, hd, ih _ _ _ _ hk2]

lemma factory_fold_value (ds : List (String × PVal)) :
    ∀ (s : BaseSensor) (saves : Nat) (effs : List Eff) (k : String) (v : PVal),
      (ds.map Prod.fst).Nodup → (k, v) ∈ ds →
      (alookup s.editable k).isSome = true →
      alookup ((ds.foldl BaseSensor.factoryStep (s, saves, effs)).1).editable k
        = some v := by
  induction ds with
  | nil => intro s saves effs k v _ hmem; cases hmem
  | cons d tl ih =>
      intro s saves effs k v hnd hmem hsome
      have hnd2 : (d.1 :: tl.map Prod.fst).Nodup := by simpa using hnd
      have hnd1 : d.1 ∉ tl.map Prod.fst := (List.nodup_cons.mp hnd2).1
      have hndtl : (tl.map Prod.fst).Nodup := (List.nodup_cons.mp hnd2).2
      rw [List.foldl_cons]
      rcases List.mem_cons.mp hmem with heq | hmemtl
      · have hk : k = d.1 := by rw [← heq]
        have hv : v = d.2 := by rw [← heq]
        subst hk
        subst hv
        cases hd : alookup s.editable d.1 with
        | some w =>
            have hfr := factory_fold_frame tl
              ({ s with editable := aset s.editable d.1 d.2 }) (saves + 1)
              (effs ++ [Eff.logInfo "Reset parameter to default"]) d.1 hnd1
            simp only [BaseSensor.factoryStep, hd]
            rw [hfr]
            simp [alookup_aset, hd]
        | none => rw [hd] at hsome; cases hsome
      · have hk2 : k ∈ tl.map Prod.fst := by
          exact List.mem_map.mpr ⟨(k, v), hmemtl, rfl⟩
        have hkne : ¬ (k = d.1) := fun hh => hnd1 (hh ▸ hk2)
        cases hd : alookup s.editable d.1 with
        | some w =>
            have hsome2 : (alookup (aset s.editable d.1 d.2) k).isSome = true := by
              rw [alookup_aset_isSome]; exact hsome
            simp only [BaseSensor.factoryStep, hd]
            exact ih _ _ _ _ _ hndtl hmemtl hsome2
        | none =>
            simp only [BaseSensor.factoryStep, hd]
            exact ih _ _ _ _ _ hndtl hmemtl hsome

lemma factory_fold_saves (ds : List (String × PVal)) :
    ∀ (s : BaseSensor) (saves : Nat) (effs : List Eff),
      (ds.foldl BaseSensor.factoryStep (s, saves, effs)).2.1
        = saves + ds.countP (fun kv => (alookup s.editable kv.1).isSome) := by
  induction ds with
  | nil => intro s saves effs; simp
  | cons d tl ih =>
      intro s saves effs
      rw [List.foldl_cons]
      cases hd : alookup s.editable d.1 with
      | some w =>
          simp only [BaseSensor.factoryStep, hd]
          rw [ih]
          rw [countP_isSome_aset]
          rw [List.countP_cons]
          simp [hd]
          omega
      | none =>
          simp only [BaseSensor.factoryStep, hd]
          rw [ih]
          rw [List.countP_cons]
          simp [hd]


lemma patternPhases_cons {γ α : Type} (c : γ) (d : α) (p : List α) :
    patternPhases c (d :: p) = (some c, d) :: (none, d) :: patternPhases c p := rfl

lemma countP_isSome_patternPhases {γ α : Type} (c : γ) (p : List α) :
    (patternPhases c p).countP (fun ph => ph.1.isSome) = p.length := by
  induction p with
  | nil => rfl
  | cons d tl ih => simp [patternPhases_cons, List.countP_cons, ih]

lemma countP_isNone_patternPhases {γ α : Type} (c : γ) (p : List α) :
    (patternPhases c p).countP (fun ph => ph.1.isNone) = p.length := by
  induction p with
  | nil => rfl
  | cons d tl ih => simp [patternPhases_cons, List.countP_cons, ih]

lemma countP_flatten_replicate {β : Type} (q : List β) (pr : β → Bool) (k : Nat) :
    ((List.replicate k q).flatten.countP pr) = k * q.countP pr := by
  induction k with
  | zero => simp
  | succ j ih =>
      rw [List.replicate_succ, List.flatten_cons, List.countP_append, ih]
      ring

lemma animRun_exits {γ α : Type} (c : γ) (p : List α) :
    ∀ (fuel times iteration : Nat), times ≠ 0 → times - iteration < fuel →
      animRunAux c p times iteration fuel
        = ((List.replicate (times - iteration) (patternPhases c p)).flatten, true) := by
  intro fuel
  induction fuel with
  | zero => intro times iter ht hf; omega
  | succ f ih =>
      intro times iter ht hf
      by_cases hlt : iter < times
      · have h1 : times - iter = (times - (iter + 1)) + 1 := by omega
        simp only [animRunAux]
        rw [if_pos (Or.inr hlt)]
        rw [ih times (iter + 1) ht (by omega)]
        rw [h1, List.replicate_succ, List.flatten_cons]
      · have h0 : times - iter = 0 := by omega
        simp only [animRunAux]
        rw [if_neg (by omega)]
        rw [h0]
        simp

lemma animRun_infinite {γ α : Type} (c : γ) (p : List α) :
    ∀ (fuel iteration : Nat), (animRunAux c p 0 iteration fuel).2 = false := by
  intro fuel
  induction fuel with
  | zero => intro iter; rfl
  | succ f ih =>
      intro iter
      simp only [animRunAux]
      simp [ih]

/-- C9: for any key absent from the declared editable parameter dict and
any value, `update_parameter` leaves the sensor (hence its configured
parameters) unmodified, does not invoke `save_config` (save counter
unchanged), and only emits a warning log. -/
theorem update_parameter_unknown_key (s : BaseSensor) (saves : Nat)
    (key : String) (v : PVal) (h : alookup s.editable key = none) :
    s.update_parameter saves key v
      = (s, saves, [Eff.logWarn "is not in editable parameters."]) := by
  simp [BaseSensor.update_parameter, h]

/-- C9 witness: a concrete sensor whose editable dict lacks the key
`threshold`; updating it changes nothing and saves nothing. -/
theorem update_parameter_unknown_key_witness :
    alookup (⟨"dht22", [], [("report_interval", PVal.pint 5)], [], [], [],
        SensorState.ACTIVE, true⟩ : BaseSensor).editable "threshold" = none
    ∧ BaseSensor.update_parameter
        ⟨"dht22", [], [("report_interval", PVal.pint 5)], [], [], [],
          SensorState.ACTIVE, true⟩ 3 "threshold" (PVal.pint 9)
      = (⟨"dht22", [], [("report_interval", PVal.pint 5)], [], [], [],
          SensorState.ACTIVE, true⟩, 3,
          [Eff.logWarn "is not in editable parameters."]) :=
  ⟨by decide, update_parameter_unknown_key _ 3 "threshold" (PVal.pint 9) (by decide)⟩

/-- C8 counterexample: publishing on a disconnected transport does not
fail: it returns normally (no error is signalled to the caller) and the
message is silently dropped apart from a warning log, refuting the
claim that `publish` fails whenever the connected flag is false. -/
theorem publish_disconnected_counterexample :
    MQTTManager.publish ⟨false, []⟩ true "shed/data" "p"
      = Except.ok (⟨false, []⟩, [Eff.logWarn "MQTT not connected. Publish aborted."]) := rfl

/-- C8 amended: `publish` on a disconnected manager logs a warning and
returns normally, with the outbox unchanged (the message is dropped,
not sent); the only failure `publish` signals is a client-level
exception re-raised while connected. -/
theorem publish_disconnected_amended (m : MQTTManager) (clientOk : Bool)
    (topic message : String) :
    (m.connected = false →
      m.publish clientOk topic message
        = Except.ok (m, [Eff.logWarn "MQTT not connected. Publish aborted."]))
    ∧ ((m.publish clientOk topic message).isOk = false ↔
        (m.connected = true ∧ clientOk = false)) := by
  constructor
  · intro h
    simp [MQTTManager.publish, h]
  · cases hc : m.connected <;> cases hk : clientOk <;>
      simp [MQTTManager.publish, hc, hk, Except.isOk, Except.toBool]

/-- C8 witness: the amended behavior at a concrete disconnected manager. -/
theorem publish_disconnected_witness :
    (⟨false, []⟩ : MQTTManager).connected = false
    ∧ MQTTManager.publish ⟨false, []⟩ false "shed/data" "p"
        = Except.ok (⟨false, []⟩, [Eff.logWarn "MQTT not connected. Publish aborted."]) :=
  ⟨rfl, (publish_disconnected_amended ⟨false, []⟩ false "shed/data" "p").1 rfl⟩

/-- C4: for `times = k > 0` the animation runs exactly `k` full passes
over the blink pattern (each pattern entry giving one on-phase and one
off-phase of the same duration, in that order), exits the loop on its
own, counts `k * len(pattern)` on-phases and as many off-phases, and
the final pixel write is the off color; for `times = 0` the loop never
exits on its own for any amount of fuel; and cancellation at any point,
for any `times`, leaves the final pixel write at the off color (the
`finally` block). -/
theorem led_animation_pattern {γ α : Type} (off c : γ) (p : List α) (k : Nat)
    (hk : 0 < k) :
    animRunAux c p k 0 (k + 1)
        = ((List.replicate k (patternPhases c p)).flatten, true)
    ∧ (List.replicate k (patternPhases c p)).flatten.countP
        (fun ph => ph.1.isSome) = k * p.length
    ∧ (List.replicate k (patternPhases c p)).flatten.countP
        (fun ph => ph.1.isNone) = k * p.length
    ∧ (animWrites off c p k (k + 1)).getLast? = some off
    ∧ (∀ fuel iteration, (animRunAux c p 0 iteration fuel).2 = false)
    ∧ (∀ times j fuel,
        (animCancelledWrites off c p times j fuel).getLast? = some off) := by
  refine ⟨?_, ?_, ?_, ?_, ?_, ?_⟩
  · have h := animRun_exits c p (k + 1) k 0 (by omega) (by omega)
    simpa using h
  · rw [countP_flatten_replicate, countP_isSome_patternPhases]
  · rw [countP_flatten_replicate, countP_isNone_patternPhases]
  · rw [animWrites, List.getLast?_concat]
  · exact fun fuel iteration => animRun_infinite c p fuel iteration
  · intro times j fuel
    rw [animCancelledWrites, List.getLast?_concat]

/-- C4 witness: `blink_pattern = [0.5, 1.0]`, `times = 2` (durations as
rationals): the phase sequence is exactly on 0.5 / off 0.5 / on 1.0 /
off 1.0 repeated twice, i.e. 4 on-phases and 4 off-phases with hold
durations 0.5, 0.5, 1.0, 1.0, 0.5, 0.5, 1.0, 1.0, and the theorem
instantiates there. -/
theorem led_animation_pattern_witness :
    (0 < 2
      ∧ (List.replicate 2 (patternPhases ((255, 0, 0) : ℕ × ℕ × ℕ)
          [(1 : ℚ)/2, 1])).flatten
        = [(some (255, 0, 0), (1 : ℚ)/2), (none, (1 : ℚ)/2),
           (some (255, 0, 0), 1), (none, 1),
           (some (255, 0, 0), (1 : ℚ)/2), (none, (1 : ℚ)/2),
           (some (255, 0, 0), 1), (none, 1)])
    ∧ (animRunAux ((255, 0, 0) : ℕ × ℕ × ℕ) [(1 : ℚ)/2, 1] 2 0 (2 + 1)
        = ((List.replicate 2 (patternPhases ((255, 0, 0) : ℕ × ℕ × ℕ)
            [(1 : ℚ)/2, 1])).flatten, true)
      ∧ (List.replicate 2 (patternPhases ((255, 0, 0) : ℕ × ℕ × ℕ)
          [(1 : ℚ)/2, 1])).flatten.countP (fun ph => ph.1.isSome) = 2 * 2
      ∧ (List.replicate 2 (patternPhases ((255, 0, 0) : ℕ × ℕ × ℕ)
          [(1 : ℚ)/2, 1])).flatten.countP (fun ph => ph.1.isNone) = 2 * 2
      ∧ (animWrites ((0, 0, 0) : ℕ × ℕ × ℕ) (255, 0, 0) [(1 : ℚ)/2, 1]
          2 (2 + 1)).getLast? = some (0, 0, 0)
      ∧ (∀ fuel iteration,
          (animRunAux ((255, 0, 0) : ℕ × ℕ × ℕ) [(1 : ℚ)/2, 1] 0 iteration
            fuel).2 = false)
      ∧ (∀ times j fuel,
          (animCancelledWrites ((0, 0, 0) : ℕ × ℕ × ℕ) (255, 0, 0)
            [(1 : ℚ)/2, 1] times j fuel).getLast? = some (0, 0, 0))) :=
  ⟨⟨by decide, rfl⟩,
    by simpa using led_animation_pattern (0, 0, 0) (255, 0, 0) [(1 : ℚ)/2, 1] 2 (by decide)⟩

/-- C5: `handle_error` always logs; it issues a publish call (with the
`error` and `timestamp` keys, on the configured error topic) if and
only if the post-global-errors policy resolves to true and an MQTT
manager is attached and an error topic is configured; every omission
path logs; and it reboots if and only if the auto-restart policy
resolves to true, otherwise returning control to the caller. -/
theorem handle_error_policy (h : ErrorHandler) (ts msg : String) :
    Eff.logErr "Handling error" ∈ (h.handle_error ts msg).2
    ∧ ((h.handle_error ts msg).2.any (fun ef => ef.pubTopic.isSome) = true ↔
        (h.post_global_errors.getD DEFAULT_POST_GLOBAL_ERROR = true
          ∧ h.mqtt_attached = true ∧ h.error_topic.isSome = true))
    ∧ (∀ t, h.error_topic = some t →
        h.post_global_errors.getD DEFAULT_POST_GLOBAL_ERROR = true →
        h.mqtt_attached = true →
        Eff.pub t [("error", msg), ("timestamp", ts)] ∈ (h.handle_error ts msg).2)
    ∧ (h.error_topic.isSome = true →
        ¬ (h.post_global_errors.getD DEFAULT_POST_GLOBAL_ERROR = true
            ∧ h.mqtt_attached = true) →
        Eff.logDebug "Not publishing error to global errors topic."
          ∈ (h.handle_error ts msg).2)
    ∧ ((h.handle_error ts msg).1 = HandleResult.reboots ↔
        h.auto_restart_on_error.getD DEFAULT_AUTO_RESTART_ON_ERROR = true) := by
  cases hp : h.post_global_errors.getD DEFAULT_POST_GLOBAL_ERROR <;>
    cases hm : h.mqtt_attached <;>
    rcases htop : h.error_topic with _ | t0 <;>
    cases hr : h.auto_restart_on_error.getD DEFAULT_AUTO_RESTART_ON_ERROR <;>
    simp [ErrorHandler.handle_error, hp, hm, htop, hr, Eff.pubTopic]

/-- C5 witness: concrete instantiation, policy on, manager attached,
topic configured, auto-restart off: the publish call is issued with the
error and timestamp keys, and the handler returns to its caller. -/
theorem handle_error_policy_witness :
    ((⟨some true, some false, some "site/errors", true⟩ : ErrorHandler).error_topic
        = some "site/errors")
    ∧ Eff.pub "site/errors" [("error", "boom"), ("timestamp", "2024-01-01 00:00:00")]
        ∈ (ErrorHandler.handle_error ⟨some true, some false, some "site/errors", true⟩
            "2024-01-01 00:00:00" "boom").2 :=
  ⟨rfl,
    (handle_error_policy ⟨some true, some false, some "site/errors", true⟩
        "2024-01-01 00:00:00" "boom").2.2.1 "site/errors" rfl rfl rfl⟩

lemma publish_state_pub_shape (s : BaseSensor) (t : String)
    (payload : List (String × String)) :
    Eff.pub t payload ∈ s.publish_state →
    payload = [("state", s.state.toStr)] ∧ s.getTopic "state" = some t := by
  rcases htop : s.getTopic "state" with _ | t0 <;>
    cases hm : s.mqtt_attached <;>
    simp [BaseSensor.publish_state, htop, hm]
  intro h1 h2
  exact ⟨h2, h1.symm⟩

lemma publish_data_not_active (s : BaseSensor) (data : List (String × String))
    (hs : s.state ≠ SensorState.ACTIVE) (t : String)
    (payload : List (String × String)) :
    Eff.pub t payload ∉ s.publish_data data := by
  by_cases hd : data.isEmpty <;>
    simp [BaseSensor.publish_data, BaseSensor.can_publish, hd, hs]

lemma publish_error_not_active (s : BaseSensor) (data : List (String × String))
    (hs : s.state ≠ SensorState.ACTIVE) (t : String)
    (payload : List (String × String)) :
    Eff.pub t payload ∉ s.publish_error data := by
  by_cases hd : data.isEmpty <;>
    simp [BaseSensor.publish_error, BaseSensor.can_publish, hd, hs]

/-- C10: `publish_error` issues a publish call only while the sensor
state is ACTIVE and the payload is non-empty (the `_can_publish` gate);
in particular a sensor already in ERROR state never publishes an error
payload (only logs); and in the scheduler error path the payload is
published (when the pre-fault state is ACTIVE, an errors topic is
configured and a manager attached) precisely because `publish_error`
runs before `error()` demotes the state to ERROR, which is the state
the sensor ends in. -/
theorem publish_error_active_gate (s : BaseSensor)
    (data : List (String × String)) :
    ((s.publish_error data).any (fun ef => ef.pubTopic.isSome) = true →
        s.state = SensorState.ACTIVE ∧ data ≠ [])
    ∧ (s.state = SensorState.ERROR →
        (s.publish_error data).any (fun ef => ef.pubTopic.isSome) = false)
    ∧ (∀ ts msg t, s.state = SensorState.ACTIVE →
        s.getTopic "errors" = some t → s.mqtt_attached = true →
        Eff.pub t [("timestamp", ts), ("error", msg)]
            ∈ (SensorManager.error_handler ts s msg).2
        ∧ (SensorManager.error_handler ts s msg).1.state = SensorState.ERROR) := by
  refine ⟨?_, ?_, ?_⟩
  · intro hpub
    by_cases hd : data.isEmpty
    · exfalso
      revert hpub
      simp [BaseSensor.publish_error, BaseSensor.can_publish, hd, Eff.pubTopic]
    · by_cases hs : s.state = SensorState.ACTIVE
      · refine ⟨hs, ?_⟩
        intro hnil
        rw [hnil] at hd
        exact hd rfl
      · exfalso
        revert hpub
        simp [BaseSensor.publish_error, BaseSensor.can_publish, hd, hs, Eff.pubTopic]
  · intro hs
    have hs2 : s.state ≠ SensorState.ACTIVE := by simp [hs]
    by_cases hd : data.isEmpty <;>
      simp [BaseSensor.publish_error, BaseSensor.can_publish, hd, hs2, Eff.pubTopic]
  · intro ts msg t hs htop hm
    constructor
    · simp [SensorManager.error_handler, BaseSensor.publish_error,
        BaseSensor.can_publish, hs, htop, hm]
    · rfl

/-- C10 witness: an ACTIVE sensor with a configured errors topic: the
scheduler error path publishes the timestamp/error payload and leaves
the sensor in ERROR state. -/
theorem publish_error_active_gate_witness :
    (⟨"gas", [("errors", "g/err"), ("state", "g/st")], [], [], [], [],
        SensorState.ACTIVE, true⟩ : BaseSensor).state = SensorState.ACTIVE
    ∧ Eff.pub "g/err" [("timestamp", "TS"), ("error", "boom")]
        ∈ (SensorManager.error_handler "TS"
            ⟨"gas", [("errors", "g/err"), ("state", "g/st")], [], [], [], [],
              SensorState.ACTIVE, true⟩ "boom").2
    ∧ (SensorManager.error_handler "TS"
        ⟨"gas", [("errors", "g/err"), ("state", "g/st")], [], [], [], [],
          SensorState.ACTIVE, true⟩ "boom").1.state = SensorState.ERROR :=
  ⟨rfl,
    ((publish_error_active_gate
        ⟨"gas", [("errors", "g/err"), ("state", "g/st")], [], [], [], [],
          SensorState.ACTIVE, true⟩ []).2.2 "TS" "boom" "g/err" rfl (by decide) rfl).1,
    ((publish_error_active_gate
        ⟨"gas", [("errors", "g/err"), ("state", "g/st")], [], [], [], [],
          SensorState.ACTIVE, true⟩ []).2.2 "TS" "boom" "g/err" rfl (by decide) rfl).2⟩

/-- C6 counterexample: a sensor whose declared `defaults` dict is empty:
`_do_factory_reset` warns and returns early, so the state stays ERROR
and no state publish happens, refuting the unconditional claim that
processing `factory_reset` always forces the state to Active and
publishes it. -/
theorem factory_reset_empty_defaults_counterexample :
    BaseSensor.do_factory_reset
        ⟨"dht22", [("state", "d/st")], [("report_interval", PVal.pint 5)],
          [], [], ["factory_reset"], SensorState.ERROR, true⟩ 0
      = (⟨"dht22", [("state", "d/st")], [("report_interval", PVal.pint 5)],
          [], [], ["factory_reset"], SensorState.ERROR, true⟩, 0,
         [Eff.logWarn "No factory_defaults found."]) := rfl

/-- C6 amended: provided the sensor declares a non-empty `defaults`
dict (with distinct keys), `_do_factory_reset` overwrites every
editable key appearing in `defaults` with its default value, leaves
editable keys outside `defaults` unchanged, persists once per accepted
write, forces the state to ACTIVE, and ends by publishing the state. -/
theorem factory_reset_defaults_amended (s : BaseSensor) (saves : Nat)
    (hne : s.defaults ≠ []) (hnd : (s.defaults.map Prod.fst).Nodup) :
    (s.do_factory_reset saves).1.state = SensorState.ACTIVE
    ∧ (∀ k v, (k, v) ∈ s.defaults → (alookup s.editable k).isSome = true →
        alookup (s.do_factory_reset saves).1.editable k = some v)
    ∧ (∀ k, k ∉ s.defaults.map Prod.fst →
        alookup (s.do_factory_reset saves).1.editable k = alookup s.editable k)
    ∧ (s.do_factory_reset saves).2.1
        = saves + s.defaults.countP (fun kv => (alookup s.editable kv.1).isSome)
    ∧ (s.do_factory_reset saves).1.publish_state <:+ (s.do_factory_reset saves).2.2 := by
  have hE : s.defaults.isEmpty = false := by
    cases hD : s.defaults with
    | nil => exact absurd hD hne
    | cons a l => rfl
  refine ⟨?_, ?_, ?_, ?_, ?_⟩
  · simp [BaseSensor.do_factory_reset, hE]
  · intro k v hmem hsome
    simp only [BaseSensor.do_factory_reset, hE, Bool.false_eq_true, if_false]
    exact factory_fold_value s.defaults s saves [] k v hnd hmem hsome
  · intro k hk
    simp only [BaseSensor.do_factory_reset, hE, Bool.false_eq_true, if_false]
    exact factory_fold_frame s.defaults s saves [] k hk
  · simp only [BaseSensor.do_factory_reset, hE, Bool.false_eq_true, if_false]
    exact factory_fold_saves s.defaults s saves []
  · simp only [BaseSensor.do_factory_reset, hE, Bool.false_eq_true, if_false]
    exact List.suffix_append _ _

/-- C6 witness: `defaults = [report_interval 30]`, current editable
`report_interval 5`, state ERROR: after the reset the editable value is
30, exactly one persistence write happened, and the state is ACTIVE. -/
theorem factory_reset_defaults_witness :
    ((⟨"dht22", [("state", "d/st")], [("report_interval", PVal.pint 5)],
        [("report_interval", PVal.pint 30)], [], ["factory_reset"],
        SensorState.ERROR, true⟩ : BaseSensor).defaults ≠ []
      ∧ ((⟨"dht22", [("state", "d/st")], [("report_interval", PVal.pint 5)],
          [("report_interval", PVal.pint 30)], [], ["factory_reset"],
          SensorState.ERROR, true⟩ : BaseSensor).defaults.map Prod.fst).Nodup)
    ∧ (BaseSensor.do_factory_reset
        ⟨"dht22", [("state", "d/st")], [("report_interval", PVal.pint 5)],
          [("report_interval", PVal.pint 30)], [], ["factory_reset"],
          SensorState.ERROR, true⟩ 0).1.state = SensorState.ACTIVE
    ∧ alookup (BaseSensor.do_factory_reset
        ⟨"dht22", [("state", "d/st")], [("report_interval", PVal.pint 5)],
          [("report_interval", PVal.pint 30)], [], ["factory_reset"],
          SensorState.ERROR, true⟩ 0).1.editable "report_interval"
        = some (PVal.pint 30)
    ∧ (BaseSensor.do_factory_reset
        ⟨"dht22", [("state", "d/st")], [("report_interval", PVal.pint 5)],
          [("report_interval", PVal.pint 30)], [], ["factory_reset"],
          SensorState.ERROR, true⟩ 0).2.1 = 1 :=
  ⟨⟨by decide, by decide⟩,
    (factory_reset_defaults_amended
        ⟨"dht22", [("state", "d/st")], [("report_interval", PVal.pint 5)],
          [("report_interval", PVal.pint 30)], [], ["factory_reset"],
          SensorState.ERROR, true⟩ 0 (by decide) (by decide)).1,
    (factory_reset_defaults_amended
        ⟨"dht22", [("state", "d/st")], [("report_interval", PVal.pint 5)],
          [("report_interval", PVal.pint 30)], [], ["factory_reset"],
          SensorState.ERROR, true⟩ 0 (by decide) (by decide)).2.1
      "report_interval" (PVal.pint 30) (by decide) (by decide),
    by
      have h := (factory_reset_defaults_amended
        ⟨"dht22", [("state", "d/st")], [("report_interval", PVal.pint 5)],
          [("report_interval", PVal.pint 30)], [], ["factory_reset"],
          SensorState.ERROR, true⟩ 0 (by decide) (by decide)).2.2.2.1
      simpa using h⟩

/-- C3: on every due tick the next update time is reset to the tick
time plus the interval read fresh from the editable `report_interval`,
regardless of the read outcome (success, empty data, or exception); and
an inbound config message whose dict contains a numeric
`report_interval` immediately reschedules the entry to the message time
plus the new interval. -/
theorem reschedule_fresh_interval (e : SensorEntry) (now : Int) (ts : String)
    (env : String → ReadOutcome) (hdue : e.next_update_time ≤ now) :
    (SensorManager.update_one now ts env e).1.next_update_time
        = now + readInterval e.sensor
    ∧ (∀ (saves : Nat) (kvs : List (String × PVal)) (n now2 : Int)
        (e2 : SensorEntry),
        alookup kvs "report_interval" = some (PVal.pint n) →
        (SensorManager.handle_config_msg e2 saves now2 ts kvs).1.next_update_time
          = now2 + n) := by
  constructor
  · cases henv : env e.sid with
    | ok data =>
        by_cases hd : data.isEmpty <;>
          simp [SensorManager.update_one, hdue, henv, hd]
    | exn m => simp [SensorManager.update_one, hdue, henv]
  · intro saves kvs n now2 e2 hri
    simp [SensorManager.handle_config_msg, hri, PVal.toInt]

/-- C3 witness: the spec scenario with `t0 = 1000`.  A successful update
at 1000 with editable `report_interval = 60` reschedules to 1060 (so
the sensor is not due at 1010); a config message at 1010 carrying
`report_interval = 5` reschedules to 1015, so the sensor is due at
1015, not at 1060. -/
theorem reschedule_fresh_interval_witness :
    ((⟨"dht22", ⟨"dht22", [("state", "d/st")],
        [("report_interval", PVal.pint 60)], [], [], [],
        SensorState.ACTIVE, true⟩, 1000⟩ : SensorEntry).next_update_time ≤ 1000
      ∧ alookup [("report_interval", PVal.pint 5)] "report_interval"
          = some (PVal.pint 5))
    ∧ (SensorManager.update_one 1000 "TS"
        (fun _ => ReadOutcome.ok [("temperature", "21")])
        ⟨"dht22", ⟨"dht22", [("state", "d/st")],
          [("report_interval", PVal.pint 60)], [], [], [],
          SensorState.ACTIVE, true⟩, 1000⟩).1.next_update_time = 1000 + 60
    ∧ (SensorManager.handle_config_msg
        ⟨"dht22", ⟨"dht22", [("state", "d/st")],
          [("report_interval", PVal.pint 60)], [], [], [],
          SensorState.ACTIVE, true⟩, 1060⟩ 0 1010 "TS"
        [("report_interval", PVal.pint 5)]).1.next_update_time = 1010 + 5 :=
  ⟨⟨by decide, by decide⟩,
    by
      have h := (reschedule_fresh_interval
        ⟨"dht22", ⟨"dht22", [("state", "d/st")],
          [("report_interval", PVal.pint 60)], [], [], [],
          SensorState.ACTIVE, true⟩, 1000⟩ 1000 "TS"
        (fun _ => ReadOutcome.ok [("temperature", "21")]) (by decide)).1
      simpa [readInterval, alookup, PVal.toInt] using h,
    (reschedule_fresh_interval
        ⟨"dht22", ⟨"dht22", [("state", "d/st")],
          [("report_interval", PVal.pint 60)], [], [], [],
          SensorState.ACTIVE, true⟩, 1000⟩ 1000 "TS"
        (fun _ => ReadOutcome.ok [("temperature", "21")]) (by decide)).2
        0 [("report_interval", PVal.pint 5)] 5 1010
        ⟨"dht22", ⟨"dht22", [("state", "d/st")],
          [("report_interval", PVal.pint 60)], [], [], [],
          SensorState.ACTIVE, true⟩, 1060⟩ (by decide)⟩

/-- C7 counterexample: a due DISABLED sensor is still polled by the
tick: its `read_values` is invoked (the read effect appears in the tick
trace), refuting the claim that no read is performed for a disabled or
errored sensor. -/
theorem disabled_sensor_read_counterexample :
    Eff.readCall "dht22" ∈
      (SensorManager.update_one 100 "TS"
        (fun _ => ReadOutcome.ok [("temperature", "21")])
        ⟨"dht22", ⟨"dht22", [("data", "d/data"), ("state", "d/st")],
          [("report_interval", PVal.pint 60)], [], [], [],
          SensorState.DISABLED, true⟩, 50⟩).2 := by decide

/-- C7 amended: a due sensor whose state is not ACTIVE is still polled
(state publish attempted, `read_values` invoked) but never has a data
or error payload published for it: every publish call the tick issues
for it is a state publish (payload with the single key `state`); and
its `next_update_time` still advances to now plus the fresh interval. -/
theorem disabled_sensor_tick_amended (e : SensorEntry) (now : Int)
    (ts : String) (env : String → ReadOutcome)
    (hdue : e.next_update_time ≤ now)
    (hstate : e.sensor.state ≠ SensorState.ACTIVE) :
    (SensorManager.update_one now ts env e).1.next_update_time
        = now + readInterval e.sensor
    ∧ Eff.readCall e.sid ∈ (SensorManager.update_one now ts env e).2
    ∧ (∀ t payload,
        Eff.pub t payload ∈ (SensorManager.update_one now ts env e).2 →
        payload.map Prod.fst = ["state"]) := by
  refine ⟨?_, ?_, ?_⟩
  · cases henv : env e.sid with
    | ok data =>
        by_cases hd : data.isEmpty <;>
          simp [SensorManager.update_one, hdue, henv, hd]
    | exn m => simp [SensorManager.update_one, hdue, henv]
  · cases henv : env e.sid with
    | ok data =>
        by_cases hd : data.isEmpty <;>
          simp [SensorManager.update_one, hdue, henv, hd]
    | exn m => simp [SensorManager.update_one, hdue, henv]
  · intro t payload hmem
    cases henv : env e.sid with
    | ok data =>
        rw [SensorManager.update_one] at hmem
        rw [if_pos hdue] at hmem
        simp only [henv] at hmem
        by_cases hd : data.isEmpty
        · simp only [hd, if_true] at hmem
          rcases List.mem_append.mp hmem with hmem2 | hmem2
          · rcases List.mem_append.mp hmem2 with hmem3 | hmem3
            · exact ((publish_state_pub_shape e.sensor t payload hmem3).1) ▸ rfl
            · simp at hmem3
          · simp at hmem2
        · simp only [hd, if_false] at hmem
          rcases List.mem_append.mp hmem with hmem2 | hmem2
          · rcases List.mem_append.mp hmem2 with hmem3 | hmem3
            · exact ((publish_state_pub_shape e.sensor t payload hmem3).1) ▸ rfl
            · simp at hmem3
          · exact absurd hmem2 (publish_data_not_active e.sensor data hstate t payload)
    | exn m =>
        rw [SensorManager.update_one] at hmem
        rw [if_pos hdue] at hmem
        simp only [henv] at hmem
        rcases List.mem_append.mp hmem with hmem2 | hmem2
        · rcases List.mem_append.mp hmem2 with hmem3 | hmem3
          · exact ((publish_state_pub_shape e.sensor t payload hmem3).1) ▸ rfl
          · simp at hmem3
        · rcases List.mem_cons.mp hmem2 with hmem3 | hmem3
          · cases hmem3
          · rw [SensorManager.error_handler] at hmem3
            rcases List.mem_cons.mp hmem3 with hmem4 | hmem4
            · cases hmem4
            · rcases List.mem_append.mp hmem4 with hmem5 | hmem5
              · rcases List.mem_append.mp hmem5 with hmem6 | hmem6
                · exact absurd hmem6 (publish_error_not_active e.sensor _ hstate t payload)
                · have hshape := (publish_state_pub_shape
                    (BaseSensor.error e.sensor).1 t payload (by simpa [BaseSensor.error] using hmem6)).1
                  rw [hshape]
                  rfl
              · simp at hmem5

/-- C7 witness: the amended statement at a concrete due DISABLED
sensor entry. -/
theorem disabled_sensor_tick_witness :
    ((⟨"dht22", ⟨"dht22", [("data", "d/data"), ("state", "d/st")],
        [("report_interval", PVal.pint 60)], [], [], [],
        SensorState.DISABLED, true⟩, 50⟩ : SensorEntry).next_update_time ≤ 100
      ∧ (⟨"dht22", ⟨"dht22", [("data", "d/data"), ("state", "d/st")],
          [("report_interval", PVal.pint 60)], [], [], [],
          SensorState.DISABLED, true⟩, 50⟩ : SensorEntry).sensor.state
          ≠ SensorState.ACTIVE)
    ∧ ((SensorManager.update_one 100 "TS"
        (fun _ => ReadOutcome.ok [("temperature", "21")])
        ⟨"dht22", ⟨"dht22", [("data", "d/data"), ("state", "d/st")],
          [("report_interval", PVal.pint 60)], [], [], [],
          SensorState.DISABLED, true⟩, 50⟩).1.next_update_time
        = 100 + readInterval (⟨"dht22", ⟨"dht22",
            [("data", "d/data"), ("state", "d/st")],
            [("report_interval", PVal.pint 60)], [], [], [],
            SensorState.DISABLED, true⟩, 50⟩ : SensorEntry).sensor
      ∧ Eff.readCall "dht22" ∈ (SensorManager.update_one 100 "TS"
          (fun _ => ReadOutcome.ok [("temperature", "21")])
          ⟨"dht22", ⟨"dht22", [("data", "d/data"), ("state", "d/st")],
            [("report_interval", PVal.pint 60)], [], [], [],
            SensorState.DISABLED, true⟩, 50⟩).2
      ∧ (∀ t payload,
          Eff.pub t payload ∈ (SensorManager.update_one 100 "TS"
            (fun _ => ReadOutcome.ok [("temperature", "21")])
            ⟨"dht22", ⟨"dht22", [("data", "d/data"), ("state", "d/st")],
              [("report_interval", PVal.pint 60)], [], [], [],
              SensorState.DISABLED, true⟩, 50⟩).2 →
          payload.map Prod.fst = ["state"])) :=
  ⟨⟨by decide, by decide⟩,
    disabled_sensor_tick_amended
      ⟨"dht22", ⟨"dht22", [("data", "d/data"), ("state", "d/st")],
        [("report_interval", PVal.pint 60)], [], [], [],
        SensorState.DISABLED, true⟩, 50⟩ 100 "TS"
      (fun _ => ReadOutcome.ok [("temperature", "21")])
      (by decide) (by decide)⟩

lemma update_one_env_congr (now : Int) (ts : String)
    (env env2 : String → ReadOutcome) (e : SensorEntry)
    (h : env2 e.sid = env e.sid) :
    SensorManager.update_one now ts env2 e
      = SensorManager.update_one now ts env e := by
  simp only [SensorManager.update_one, h]

/-- C1 counterexample: a due sensor that is already in ERROR state when
its read raises: the `_can_publish` gate inside `publish_error` skips
the publish, so no message at all is issued on its errors topic during
the tick, refuting the unconditional claim that a failing due sensor
always gets an error payload published on its errors topic. -/
theorem tick_error_payload_counterexample :
    ((SensorManager.update_sensors
        [⟨"gas", ⟨"gas", [("errors", "g/err"), ("state", "g/st")], [], [], [],
          [], SensorState.ERROR, true⟩, 0⟩] 100 "TS"
        (fun _ => ReadOutcome.exn "boom")).2.countP
      (fun ef => ef.pubTopic == some "g/err")) = 0 := by decide

/-- C1 amended: in a tick, every entry is updated by its own loop
iteration, whose result depends only on that entry and its own read
outcome (so one sensor raising never changes what happens to the
others); a due sensor whose read raises is always forced into ERROR
state; and the `{timestamp, error}` payload is issued on its errors
topic provided it was still ACTIVE when the fault hit, an errors topic
is configured and an MQTT manager attached. -/
theorem tick_fault_isolation_amended (entries : List SensorEntry) (now : Int)
    (ts : String) (env : String → ReadOutcome) (e : SensorEntry) (m : String)
    (he : e ∈ entries) (hdue : e.next_update_time ≤ now)
    (hexn : env e.sid = ReadOutcome.exn m) :
    (SensorManager.update_sensors entries now ts env).1
        = entries.map (fun x => (SensorManager.update_one now ts env x).1)
    ∧ (∀ (x : SensorEntry) (env2 : String → ReadOutcome),
        env2 x.sid = env x.sid →
        SensorManager.update_one now ts env2 x
          = SensorManager.update_one now ts env x)
    ∧ (SensorManager.update_one now ts env e).1.sensor.state = SensorState.ERROR
    ∧ (∀ t, e.sensor.state = SensorState.ACTIVE →
        e.sensor.getTopic "errors" = some t → e.sensor.mqtt_attached = true →
        Eff.pub t [("timestamp", ts), ("error", "Error during sensor update: " ++ m)]
          ∈ (SensorManager.update_sensors entries now ts env).2) := by
  refine ⟨rfl, ?_, ?_, ?_⟩
  · exact fun x env2 h => update_one_env_congr now ts env env2 x h
  · simp [SensorManager.update_one, hdue, hexn, SensorManager.error_handler,
      BaseSensor.error]
  · intro t hs htop hm
    have hpub : Eff.pub t [("timestamp", ts),
        ("error", "Error during sensor update: " ++ m)]
        ∈ (SensorManager.update_one now ts env e).2 := by
      simp [SensorManager.update_one, hdue, hexn, SensorManager.error_handler,
        BaseSensor.publish_error, BaseSensor.can_publish, hs, htop, hm]
    have hlist : (SensorManager.update_one now ts env e).2
        ∈ entries.map (fun x => (SensorManager.update_one now ts env x).2) :=
      List.mem_map_of_mem _ he
    exact List.mem_flatten.mpr ⟨_, hlist, hpub⟩

/-- C1 witness: two due sensors; the first (ACTIVE, errors topic
configured) raises while the second reads fine: the error payload is
issued on the first sensor errors topic, and (checked by evaluation)
the second sensor is still read and rescheduled in the same tick. -/
theorem tick_fault_isolation_witness :
    ((⟨"s1", ⟨"s1", [("errors", "s1/err"), ("state", "s1/st")], [], [], [], [],
        SensorState.ACTIVE, true⟩, 0⟩ : SensorEntry)
        ∈ [(⟨"s1", ⟨"s1", [("errors", "s1/err"), ("state", "s1/st")], [], [], [],
            [], SensorState.ACTIVE, true⟩, 0⟩ : SensorEntry),
           ⟨"s2", ⟨"s2", [("data", "s2/data"), ("state", "s2/st")], [], [], [],
            [], SensorState.ACTIVE, true⟩, 0⟩]
      ∧ (0 : Int) ≤ 100
      ∧ (fun sid => if sid = "s1" then ReadOutcome.exn "boom"
          else ReadOutcome.ok [("v", "1")]) "s1" = ReadOutcome.exn "boom")
    ∧ Eff.pub "s1/err" [("timestamp", "TS"),
        ("error", "Error during sensor update: " ++ "boom")]
        ∈ (SensorManager.update_sensors
          [⟨"s1", ⟨"s1", [("errors", "s1/err"), ("state", "s1/st")], [], [], [],
            [], SensorState.ACTIVE, true⟩, 0⟩,
           ⟨"s2", ⟨"s2", [("data", "s2/data"), ("state", "s2/st")], [], [], [],
            [], SensorState.ACTIVE, true⟩, 0⟩] 100 "TS"
          (fun sid => if sid = "s1" then ReadOutcome.exn "boom"
            else ReadOutcome.ok [("v", "1")])).2
    ∧ Eff.readCall "s2" ∈ (SensorManager.update_sensors
          [⟨"s1", ⟨"s1", [("errors", "s1/err"), ("state", "s1/st")], [], [], [],
            [], SensorState.ACTIVE, true⟩, 0⟩,
           ⟨"s2", ⟨"s2", [("data", "s2/data"), ("state", "s2/st")], [], [], [],
            [], SensorState.ACTIVE, true⟩, 0⟩] 100 "TS"
          (fun sid => if sid = "s1" then ReadOutcome.exn "boom"
            else ReadOutcome.ok [("v", "1")])).2 :=
  ⟨⟨by decide, by decide, by decide⟩,
    (tick_fault_isolation_amended
      [⟨"s1", ⟨"s1", [("errors", "s1/err"), ("state", "s1/st")], [], [], [],
        [], SensorState.ACTIVE, true⟩, 0⟩,
       ⟨"s2", ⟨"s2", [("data", "s2/data"), ("state", "s2/st")], [], [], [],
        [], SensorState.ACTIVE, true⟩, 0⟩] 100 "TS"
      (fun sid => if sid = "s1" then ReadOutcome.exn "boom"
        else ReadOutcome.ok [("v", "1")])
      ⟨"s1", ⟨"s1", [("errors", "s1/err"), ("state", "s1/st")], [], [], [], [],
        SensorState.ACTIVE, true⟩, 0⟩ "boom"
      (by decide) (by decide) (by decide)).2.2.2 "s1/err" rfl (by decide) rfl,
    by decide⟩
